import Mathlib

/-!
Verification of the instagram-unfollow-v2 reconciliation-and-action engine.

The storage layer (`pkg/storage/storage.go`) persists five SQLite tables:
`following`, `followers`, `unfollowed`, `not_following` (all keyed by
`username` as PRIMARY KEY) and the append-only `session_actions` log.
We embed each table as a list of rows in stored (rowid / insertion) order;
`INSERT OR REPLACE` on a rowid table deletes the conflicting row and appends
a fresh one, which we model as filter-out-then-append.  All timestamps are
unix seconds carried as `Int`, matching SQLite's `strftime('%s','now')`.
-/

namespace InstagramUnfollow

/-- `storage.Relationship`: one row of the `following` / `followers` tables. -/
structure Relationship where
  username : String
  href : String
  timestamp : Int
  deriving Repr, DecidableEq

/-- One row of the `unfollowed` / `not_following` tables: username (primary
key) plus the recording timestamp. -/
structure MarkRow where
  username : String
  at_time : Int
  deriving Repr, DecidableEq

/-- One row of the append-only `session_actions` log. -/
structure ActionEntry where
  action_type : String
  username : String
  action_at : Int
  deriving Repr, DecidableEq

/-- The persisted state: the five tables created by `ensureSchema`. -/
structure Store where
  following : List Relationship
  followers : List Relationship
  unfollowed : List MarkRow
  not_following : List MarkRow
  session_actions : List ActionEntry
  deriving Repr, DecidableEq

/-- `INSERT OR REPLACE` keyed by an arbitrary key projection: on a rowid
table SQLite deletes the conflicting row and appends the new one. -/
def upsertBy {α : Type} (key : α → String) (t : List α) (r : α) : List α :=
  (t.filter fun x => !(key x == key r)) ++ [r]

/-- `storage.upsertRelationships`: prepared `INSERT OR REPLACE` executed for
each row of the import, in order. -/
def upsertRelationships (t : List Relationship) (rows : List Relationship) :
    List Relationship :=
  rows.foldl (upsertBy Relationship.username) t

/-- `storage.UpsertFollowing`. -/
def Store.upsertFollowing (s : Store) (rows : List Relationship) : Store :=
  { s with following := upsertRelationships s.following rows }

/-- `storage.UpsertFollowers`. -/
def Store.upsertFollowers (s : Store) (rows : List Relationship) : Store :=
  { s with followers := upsertRelationships s.followers rows }

/-- `app.parseToDB` (import path): upsert the parsed `following` rows, then
the concatenation of all parsed `followers` files. -/
def Store.importData (s : Store) (followingRows followersRows : List Relationship) :
    Store :=
  (s.upsertFollowing followingRows).upsertFollowers followersRows

/-- `storage.MarkUnfollowed`: `INSERT OR REPLACE INTO unfollowed`. -/
def Store.markUnfollowed (s : Store) (u : String) (now : Int) : Store :=
  { s with unfollowed := upsertBy MarkRow.username s.unfollowed ⟨u, now⟩ }

/-- `storage.MarkNotFollowing`: `INSERT OR REPLACE INTO not_following`. -/
def Store.markNotFollowing (s : Store) (u : String) (now : Int) : Store :=
  { s with not_following := upsertBy MarkRow.username s.not_following ⟨u, now⟩ }

/-- `storage.RemoveFromFollowing`: `DELETE FROM following WHERE username = ?`. -/
def Store.removeFromFollowing (s : Store) (u : String) : Store :=
  { s with following := s.following.filter fun x => !(x.username == u) }

/-- `storage.RecordAction`: append-only insert into `session_actions`. -/
def Store.recordAction (s : Store) (kind u : String) (now : Int) : Store :=
  { s with session_actions := s.session_actions ++ [⟨kind, u, now⟩] }

/-- The `WHERE action_type = ? AND action_at > strftime('%s','now') - 3600`
window predicate shared by the rate-limiter queries. -/
def inWindow (kind : String) (now : Int) (e : ActionEntry) : Bool :=
  e.action_type == kind && now - 3600 < e.action_at

/-- `storage.ActionsInLastHour`: `COUNT(*)` over the one-hour window. -/
def actionsInLastHour (log : List ActionEntry) (kind : String) (now : Int) : Nat :=
  (log.filter (inWindow kind now)).length

/-- `storage.OldestActionInLastHour`: `COALESCE(MIN(action_at), 0)` over the
one-hour window. -/
def oldestActionInLastHour (log : List ActionEntry) (kind : String) (now : Int) :
    Int :=
  match log.filter (inWindow kind now) with
  | [] => 0
  | x :: xs => xs.foldl (fun m e => min m e.action_at) x.action_at

/-- The candidate row filter of `storage.UnfollowCandidates`: the three
`LEFT JOIN ... IS NULL` anti-joins of the SQL query. -/
def candidateRow (s : Store) (r : Relationship) : Bool :=
  !(s.followers.any fun fr => fr.username == r.username) &&
  !(s.unfollowed.any fun u => u.username == r.username) &&
  !(s.not_following.any fun n => n.username == r.username)

/-- `ORDER BY f.timestamp DESC`: stable insertion of `r` into a list already
sorted by timestamp descending. -/
def insortDesc (r : Relationship) : List Relationship → List Relationship
  | [] => [r]
  | x :: xs => if x.timestamp < r.timestamp then r :: x :: xs else x :: insortDesc r xs

/-- Stable sort by timestamp descending (ties keep scan order). -/
def sortByTimestampDesc (l : List Relationship) : List Relationship :=
  l.foldr insortDesc []

/-- `storage.UnfollowCandidates`: rows of `following` surviving the three
anti-joins, ordered by `timestamp DESC`. -/
def unfollowCandidates (s : Store) : List Relationship :=
  sortByTimestampDesc (s.following.filter (candidateRow s))

/-! ## Target state machine (`pkg/browser`, `Browser.Unfollow`)

`Unfollow` drives one candidate through navigate → availability check →
relationship classification → click "Following" → click "Unfollow" →
verification.  Each remote observation is an opaque inspection of the page;
we embed one attempt as a pure function of a `PageEnv` recording what every
inspection would report and whether each `chromedp.Run` call succeeds, and
additionally return the trace of steps the machine actually performed. -/

/-- `browser.UnfollowResult`. -/
inductive UnfollowResult where
  | success
  | notFollowing
  | profileUnavailable
  | error
  deriving Repr, DecidableEq

/-- The tri-state result of the relationship-classification script, which
returns exactly one of the strings `following` / `not_following` /
`unknown`. -/
inductive FollowStatus where
  | following
  | not_following
  | unknown
  deriving Repr, DecidableEq

/-- The remote-interaction steps of one `Unfollow` attempt. -/
inductive UStep where
  | navigate
  | checkAvailability
  | checkStatus
  | clickFollowing
  | clickUnfollow
  | verify
  deriving Repr, DecidableEq

/-- Scripted responses of the remote page for one `Unfollow` attempt:
whether each `chromedp.Run` succeeds, and what each inspection reports. -/
structure PageEnv where
  navigateOk : Bool
  availCheckOk : Bool
  profileUnavailable : Bool
  statusCheckOk : Bool
  followStatus : FollowStatus
  clickFollowingOk : Bool
  followingButtonFound : Bool
  clickUnfollowOk : Bool
  verifyCheckOk : Bool
  newStatus : FollowStatus
  deriving Repr, DecidableEq

/-- `Browser.Unfollow`, as the pair (terminal outcome, steps performed). -/
def unfollowMachine (env : PageEnv) : UnfollowResult × List UStep :=
  if !env.navigateOk then (.error, [.navigate])
  else if !env.availCheckOk then (.error, [.navigate, .checkAvailability])
  else if env.profileUnavailable then
    (.profileUnavailable, [.navigate, .checkAvailability])
  else if !env.statusCheckOk then
    (.error, [.navigate, .checkAvailability, .checkStatus])
  else
    match env.followStatus with
    | .not_following => (.notFollowing, [.navigate, .checkAvailability, .checkStatus])
    | .unknown => (.error, [.navigate, .checkAvailability, .checkStatus])
    | .following =>
      if !env.clickFollowingOk then
        (.error, [.navigate, .checkAvailability, .checkStatus, .clickFollowing])
      else if !env.followingButtonFound then
        (.error, [.navigate, .checkAvailability, .checkStatus, .clickFollowing])
      else if !env.clickUnfollowOk then
        (.error, [.navigate, .checkAvailability, .checkStatus, .clickFollowing,
          .clickUnfollow])
      else if !env.verifyCheckOk then
        (.error, [.navigate, .checkAvailability, .checkStatus, .clickFollowing,
          .clickUnfollow, .verify])
      else
        match env.newStatus with
        | .following =>
          (.error, [.navigate, .checkAvailability, .checkStatus, .clickFollowing,
            .clickUnfollow, .verify])
        | .not_following =>
          (.success, [.navigate, .checkAvailability, .checkStatus, .clickFollowing,
            .clickUnfollow, .verify])
        | .unknown =>
          (.success, [.navigate, .checkAvailability, .checkStatus, .clickFollowing,
            .clickUnfollow, .verify])

/-! ## Session controller (`cmd`, `runUnfollow` continuous variant and
`calculateWaitTime`) -/

/-- The per-outcome store mutations of the `switch result` block in
`runUnfollow`: Success → MarkUnfollowed; RecordAction; RemoveFromFollowing.
NotFollowing → MarkNotFollowing; RemoveFromFollowing.  ProfileUnavailable →
RemoveFromFollowing; MarkNotFollowing.  Error → nothing. -/
def applyOutcome (s : Store) (u : String) (now : Int) :
    UnfollowResult → Store
  | .success => (((s.markUnfollowed u now).recordAction "unfollow" u now).removeFromFollowing u)
  | .notFollowing => ((s.markNotFollowing u now).removeFromFollowing u)
  | .profileUnavailable => ((s.removeFromFollowing u).markNotFollowing u now)
  | .error => s

/-- `calculateWaitTime`, in seconds: the result of `OldestActionInLastHour`
(an `Except` capturing the `err != nil` path) is turned into a wait of
5 minutes when errored or zero, else `oldest + 1h + 1min - now` floored at
1 minute. -/
def calculateWaitTime (now : Int) (oldestRes : Except String Int) : Int :=
  match oldestRes with
  | .error _ => 300
  | .ok oldest =>
    if oldest == 0 then 300
    else
      let freeAt := oldest + 3600 + 60
      let wait := freeAt - now
      if wait < 60 then 60 else wait

/-- Effective `actionsLastHour` after the error handler in `runUnfollow`:
a failed `ActionsInLastHour` read is logged and replaced by `0`. -/
def effectiveActions (res : Except String Nat) : Nat :=
  match res with
  | .error _ => 0
  | .ok n => n

/-- The decision of the quota check at the top of the `runUnfollow` loop. -/
inductive QuotaOutcome where
  | fatal (msg : String)
  | cooldown
  | proceed (remaining : Nat)
  deriving Repr, DecidableEq

/-- Whether a quota-check decision stops the controller with an error. -/
def QuotaOutcome.isFatal : QuotaOutcome → Bool
  | .fatal _ => true
  | _ => false

/-- The CheckQuota step of `runUnfollow`: read recent actions (errors are
downgraded to a zero count), clamp `hourlyLimit - actionsLastHour` at zero,
and enter cooldown when nothing remains. -/
def checkQuotaStep (hourlyLimit : Int) (readRes : Except String Nat) :
    QuotaOutcome :=
  let actionsLastHour : Int := effectiveActions readRes
  let remaining := hourlyLimit - actionsLastHour
  let remaining := if remaining < 0 then 0 else remaining
  if remaining ≤ 0 then .cooldown else .proceed remaining.toNat

/-- Results of the database reads performed by one outer-loop iteration,
each an `Except` so that read failures can be represented.  `honestReads`
below instantiates them from the store. -/
structure DBReads where
  actionsRead : Except String Nat
  candidatesRead : Except String (List Relationship)
  oldestRead : Except String Int

/-- The failure-free reads: what the SQLite queries return on a healthy
database in state `s` at time `now`. -/
def honestReads (s : Store) (now : Int) : DBReads :=
  { actionsRead := .ok (actionsInLastHour s.session_actions "unfollow" now)
    candidatesRead := .ok (unfollowCandidates s)
    oldestRead := .ok (oldestActionInLastHour s.session_actions "unfollow" now) }

/-- The inner candidate loop `for i, candidate := range candidates[:maxCount]`:
dispatch each candidate to the state machine (`script` gives the outcome),
apply the outcome's store mutations, count successes, and break once
`successful >= remainingThisHour`. -/
def processBatch (script : String → UnfollowResult) (remaining : Nat)
    (now : Int) : List Relationship → Store → Nat →
    Store × List (String × UnfollowResult)
  | [], s, _ => (s, [])
  | c :: rest, s, successful =>
    let r := script c.username
    let s1 := applyOutcome s c.username now r
    match r with
    | .success =>
      if remaining ≤ successful + 1 then (s1, [(c.username, r)])
      else
        let next := processBatch script remaining now rest s1 (successful + 1)
        (next.1, (c.username, .success) :: next.2)
    | other =>
      let next := processBatch script remaining now rest s1 successful
      (next.1, (c.username, other) :: next.2)

/-- The observable result of one iteration of the outer `for` loop of
`runUnfollow`. -/
inductive IterResult where
  | fatal (msg : String)
  | done
  | cooldown (wait : Int)
  | batch (s1 : Store) (processed : List (String × UnfollowResult))
  deriving Repr, DecidableEq

/-- One iteration of the outer loop of `runUnfollow` (continuous variant):
check quota (cooldown when exhausted), load candidates (errors are fatal),
stop when none remain, otherwise process up to
`min remaining (candidates.length)` candidates. -/
def loopIter (hourlyLimit : Int) (script : String → UnfollowResult)
    (s : Store) (now : Int) (reads : DBReads) : IterResult :=
  let actionsLastHour : Int := effectiveActions reads.actionsRead
  let remaining := hourlyLimit - actionsLastHour
  let remaining := if remaining < 0 then 0 else remaining
  if remaining ≤ 0 then .cooldown (calculateWaitTime now reads.oldestRead)
  else
    match reads.candidatesRead with
    | .error msg => .fatal msg
    | .ok candidates =>
      if candidates.isEmpty then .done
      else
        let maxCount := min remaining.toNat candidates.length
        let res := processBatch script remaining.toNat now (candidates.take maxCount) s 0
        .batch res.1 res.2

/-- The candidates a loop iteration dispatched (empty for the non-batch
outcomes). -/
def IterResult.processed : IterResult → List (String × UnfollowResult)
  | .batch _ ps => ps
  | _ => []

/-! ## Lemmas about the candidate query -/

theorem insortDesc_perm (r : Relationship) (l : List Relationship) :
    List.Perm (insortDesc r l) (r :: l) := by
  induction l with
  | nil => exact List.Perm.refl _
  | cons x xs ih =>
    simp only [insortDesc]
    split
    · exact List.Perm.refl _
    · exact (ih.cons x).trans (List.Perm.swap r x xs)

theorem sortByTimestampDesc_perm (l : List Relationship) :
    List.Perm (sortByTimestampDesc l) l := by
  induction l with
  | nil => exact List.Perm.refl _
  | cons x xs ih =>
    simp only [sortByTimestampDesc, List.foldr] at ih ⊢
    exact (insortDesc_perm x _).trans (ih.cons x)

theorem insortDesc_pairwise (r : Relationship) (l : List Relationship)
    (h : l.Pairwise fun a b => b.timestamp ≤ a.timestamp) :
    (insortDesc r l).Pairwise fun a b => b.timestamp ≤ a.timestamp := by
  induction l with
  | nil => simp [insortDesc]
  | cons x xs ih =>
    rw [List.pairwise_cons] at h
    obtain ⟨hx, hxs⟩ := h
    simp only [insortDesc]
    split
    · rename_i hlt
      refine List.pairwise_cons.2 ⟨?_, List.pairwise_cons.2 ⟨hx, hxs⟩⟩
      intro b hb
      rcases List.mem_cons.1 hb with rfl | hb
      · exact le_of_lt hlt
      · exact le_trans (hx b hb) (le_of_lt hlt)
    · rename_i hge
      refine List.pairwise_cons.2 ⟨?_, ih hxs⟩
      intro b hb
      rw [(insortDesc_perm r xs).mem_iff] at hb
      rcases List.mem_cons.1 hb with rfl | hb
      · exact le_of_not_lt hge
      · exact hx b hb

theorem sortByTimestampDesc_pairwise (l : List Relationship) :
    (sortByTimestampDesc l).Pairwise fun a b => b.timestamp ≤ a.timestamp := by
  induction l with
  | nil => simp [sortByTimestampDesc]
  | cons x xs ih => exact insortDesc_pairwise x _ ih

theorem mem_unfollowCandidates (s : Store) (r : Relationship) :
    r ∈ unfollowCandidates s ↔
      r ∈ s.following ∧
      (∀ fr ∈ s.followers, fr.username ≠ r.username) ∧
      (∀ m ∈ s.unfollowed, m.username ≠ r.username) ∧
      (∀ m ∈ s.not_following, m.username ≠ r.username) := by
  unfold unfollowCandidates
  rw [(sortByTimestampDesc_perm _).mem_iff, List.mem_filter]
  simp [candidateRow, and_assoc]

/-- C1: for every state of the four persisted sets, `UnfollowCandidates`
returns exactly Following minus Followers minus Actioned (`unfollowed`)
minus Excluded (`not_following`) by identifier, ordered by
most-recently-observed timestamp first (the query is a pure function of the
state, so ties are resolved deterministically); in particular an identifier
present in `unfollowed` or `not_following` is never returned, even after
being re-imported into `following`. -/
theorem claim1_candidates_set_difference_ordered :
    (∀ (s : Store) (u : String),
      u ∈ (unfollowCandidates s).map Relationship.username ↔
        ((∃ r ∈ s.following, r.username = u) ∧
         (∀ fr ∈ s.followers, fr.username ≠ u) ∧
         (∀ m ∈ s.unfollowed, m.username ≠ u) ∧
         (∀ m ∈ s.not_following, m.username ≠ u))) ∧
    (∀ s : Store,
      (unfollowCandidates s).Pairwise fun a b => b.timestamp ≤ a.timestamp) ∧
    (∀ (s : Store) (rows : List Relationship) (u : String),
      ((∃ m ∈ s.unfollowed, m.username = u) ∨
       (∃ m ∈ s.not_following, m.username = u)) →
      u ∉ (unfollowCandidates (s.upsertFollowing rows)).map Relationship.username) := by
  refine ⟨fun s u => ?_, fun s => sortByTimestampDesc_pairwise _, fun s rows u hmem hin => ?_⟩
  · rw [List.mem_map]
    constructor
    · rintro ⟨r, hr, rfl⟩
      rw [mem_unfollowCandidates] at hr
      exact ⟨⟨r, hr.1, rfl⟩, hr.2.1, hr.2.2.1, hr.2.2.2⟩
    · rintro ⟨⟨r, hrf, rfl⟩, h2, h3, h4⟩
      exact ⟨r, (mem_unfollowCandidates s r).2 ⟨hrf, h2, h3, h4⟩, rfl⟩
  · rw [List.mem_map] at hin
    obtain ⟨r, hr, rfl⟩ := hin
    rw [mem_unfollowCandidates] at hr
    rcases hmem with ⟨m, hm, he⟩ | ⟨m, hm, he⟩
    · exact hr.2.2.1 m hm he
    · exact hr.2.2.2 m hm he

/-- Witness for C1: `bob` is in `unfollowed` and re-imported into
`following`, yet is not among the candidates. -/
theorem claim1_witness :
    "bob" ∉ (unfollowCandidates
      ((⟨[⟨"alice", "h", 5⟩], [], [⟨"bob", 3⟩], [], []⟩ : Store).upsertFollowing
        [⟨"bob", "h", 10⟩])).map Relationship.username :=
  claim1_candidates_set_difference_ordered.2.2
    ⟨[⟨"alice", "h", 5⟩], [], [⟨"bob", 3⟩], [], []⟩ [⟨"bob", "h", 10⟩] "bob"
    (Or.inl ⟨⟨"bob", 3⟩, by simp, rfl⟩)

/-- C10: whenever the `following` table satisfies its PRIMARY KEY
constraint (pairwise-distinct usernames), the candidate list contains each
identifier at most once. -/
theorem claim10_candidates_no_duplicates (s : Store)
    (hWF : s.following.Pairwise fun a b => a.username ≠ b.username) :
    ((unfollowCandidates s).map Relationship.username).Nodup := by
  simp only [List.Nodup, List.pairwise_map]
  rw [unfollowCandidates,
    (sortByTimestampDesc_perm (s.following.filter (candidateRow s))).pairwise_iff
      (fun hab => Ne.symm hab)]
  exact hWF.filter _

/-- Witness for C10 on a concrete three-row store. -/
theorem claim10_witness :
    ((unfollowCandidates
      ⟨[⟨"a", "h", 7⟩, ⟨"b", "h", 7⟩, ⟨"c", "h", 2⟩], [⟨"b", "h", 1⟩], [], [], []⟩).map
        Relationship.username).Nodup :=
  claim10_candidates_no_duplicates
    ⟨[⟨"a", "h", 7⟩, ⟨"b", "h", 7⟩, ⟨"c", "h", 2⟩], [⟨"b", "h", 1⟩], [], [], []⟩
    (by decide)

/-- C2: the per-outcome store mutations of the session controller's
`switch`: Success marks the identifier actioned, removes it from
`following`, and appends exactly one rate-limiter entry; NotFollowing and
ProfileUnavailable mark it excluded (`not_following`) and remove it from
`following` without touching the action log; Error mutates nothing, so the
candidate set (hence the identifier's candidacy) is unchanged for the next
pass. -/
theorem claim2_outcome_table (s : Store) (u : String) (now : Int) :
    ((applyOutcome s u now .success).unfollowed
        = upsertBy MarkRow.username s.unfollowed ⟨u, now⟩ ∧
      (applyOutcome s u now .success).following
        = s.following.filter (fun x => !(x.username == u)) ∧
      (applyOutcome s u now .success).session_actions
        = s.session_actions ++ [⟨"unfollow", u, now⟩] ∧
      (applyOutcome s u now .success).followers = s.followers ∧
      (applyOutcome s u now .success).not_following = s.not_following) ∧
    ((applyOutcome s u now .notFollowing).not_following
        = upsertBy MarkRow.username s.not_following ⟨u, now⟩ ∧
      (applyOutcome s u now .notFollowing).following
        = s.following.filter (fun x => !(x.username == u)) ∧
      (applyOutcome s u now .notFollowing).session_actions = s.session_actions ∧
      (applyOutcome s u now .notFollowing).followers = s.followers ∧
      (applyOutcome s u now .notFollowing).unfollowed = s.unfollowed) ∧
    ((applyOutcome s u now .profileUnavailable).not_following
        = upsertBy MarkRow.username s.not_following ⟨u, now⟩ ∧
      (applyOutcome s u now .profileUnavailable).following
        = s.following.filter (fun x => !(x.username == u)) ∧
      (applyOutcome s u now .profileUnavailable).session_actions = s.session_actions ∧
      (applyOutcome s u now .profileUnavailable).followers = s.followers ∧
      (applyOutcome s u now .profileUnavailable).unfollowed = s.unfollowed) ∧
    (applyOutcome s u now .error = s ∧
      unfollowCandidates (applyOutcome s u now .error) = unfollowCandidates s) :=
  ⟨⟨rfl, rfl, rfl, rfl, rfl⟩, ⟨rfl, rfl, rfl, rfl, rfl⟩,
   ⟨rfl, rfl, rfl, rfl, rfl⟩, rfl, rfl⟩

/-- C3: in the Verify step (all earlier steps passed and the action was
attempted), re-classification `following` yields `Error` and never
`Success`; `not_following` yields `Success`; `unknown` yields `Success`
(the warn-and-assume-success reference policy). -/
theorem claim3_verify_step_policy (env : PageEnv)
    (h1 : env.navigateOk = true) (h2 : env.availCheckOk = true)
    (h3 : env.profileUnavailable = false) (h4 : env.statusCheckOk = true)
    (h5 : env.followStatus = .following)
    (h6 : env.clickFollowingOk = true) (h7 : env.followingButtonFound = true)
    (h8 : env.clickUnfollowOk = true) (h9 : env.verifyCheckOk = true) :
    (env.newStatus = .following →
      (unfollowMachine env).1 = .error ∧ (unfollowMachine env).1 ≠ .success) ∧
    (env.newStatus = .not_following → (unfollowMachine env).1 = .success) ∧
    (env.newStatus = .unknown → (unfollowMachine env).1 = .success) := by
  refine ⟨fun h => ?_, fun h => ?_, fun h => ?_⟩ <;>
    simp [unfollowMachine, h1, h2, h3, h4, h5, h6, h7, h8, h9, h]

/-- Witness for C3: a fully cooperative page whose verification still shows
`following` ends in `Error`; one that shows `not_following` ends in
`Success`. -/
theorem claim3_witness :
    (unfollowMachine
      ⟨true, true, false, true, .following, true, true, true, true, .following⟩).1
        = .error ∧
    (unfollowMachine
      ⟨true, true, false, true, .following, true, true, true, true, .not_following⟩).1
        = .success :=
  ⟨((claim3_verify_step_policy _ rfl rfl rfl rfl rfl rfl rfl rfl rfl).1 rfl).1,
   (claim3_verify_step_policy _ rfl rfl rfl rfl rfl rfl rfl rfl rfl).2.1 rfl⟩

/-- C8: when the relationship classification reports `not_following`, the
machine ends with outcome `NotFollowing` and never performs the click
(action), confirmation, or verification steps. -/
theorem claim8_not_following_skips_action (env : PageEnv)
    (h1 : env.navigateOk = true) (h2 : env.availCheckOk = true)
    (h3 : env.profileUnavailable = false) (h4 : env.statusCheckOk = true)
    (h5 : env.followStatus = .not_following) :
    (unfollowMachine env).1 = .notFollowing ∧
    UStep.clickFollowing ∉ (unfollowMachine env).2 ∧
    UStep.clickUnfollow ∉ (unfollowMachine env).2 ∧
    UStep.verify ∉ (unfollowMachine env).2 := by
  simp [unfollowMachine, h1, h2, h3, h4, h5]

/-- Witness for C8 on a concrete page environment. -/
theorem claim8_witness :
    (unfollowMachine
      ⟨true, true, false, true, .not_following, true, true, true, true, .unknown⟩).1
        = .notFollowing ∧
    UStep.clickFollowing ∉ (unfollowMachine
      ⟨true, true, false, true, .not_following, true, true, true, true, .unknown⟩).2 :=
  ⟨(claim8_not_following_skips_action _ rfl rfl rfl rfl rfl).1,
   (claim8_not_following_skips_action _ rfl rfl rfl rfl rfl).2.1⟩

/-! ## Lemmas about the rate-limiter queries -/

theorem foldl_min_spec (xs : List ActionEntry) (a : Int) :
    xs.foldl (fun m e => min m e.action_at) a ≤ a ∧
    (∀ e ∈ xs, xs.foldl (fun m e => min m e.action_at) a ≤ e.action_at) ∧
    (xs.foldl (fun m e => min m e.action_at) a = a ∨
      ∃ e ∈ xs, xs.foldl (fun m e => min m e.action_at) a = e.action_at) := by
  induction xs generalizing a with
  | nil => simp
  | cons x xs ih =>
    simp only [List.foldl_cons]
    obtain ⟨ha, hall, hmem⟩ := ih (min a x.action_at)
    refine ⟨le_trans ha (min_le_left _ _), fun e he => ?_, ?_⟩
    · rcases List.mem_cons.1 he with rfl | he
      · exact le_trans ha (min_le_right _ _)
      · exact hall e he
    · rcases hmem with h | ⟨e, he, hres⟩
      · rcases le_total a x.action_at with hle | hle
        · exact Or.inl (by rw [h, min_eq_left hle])
        · exact Or.inr ⟨x, List.mem_cons_self _ _, by rw [h, min_eq_right hle]⟩
      · exact Or.inr ⟨e, List.mem_cons.2 (Or.inr he), hres⟩

theorem oldestActionInLastHour_spec (log : List ActionEntry) (kind : String)
    (now : Int) (h : log.filter (inWindow kind now) ≠ []) :
    oldestActionInLastHour log kind now
        ∈ (log.filter (inWindow kind now)).map ActionEntry.action_at ∧
    ∀ e ∈ log.filter (inWindow kind now),
      oldestActionInLastHour log kind now ≤ e.action_at := by
  rcases hW : log.filter (inWindow kind now) with _ | ⟨x, xs⟩
  · exact absurd hW h
  · simp only [oldestActionInLastHour, hW]
    obtain ⟨ha, hall, hmem⟩ := foldl_min_spec xs x.action_at
    refine ⟨?_, fun e he => ?_⟩
    · rcases hmem with h0 | ⟨e, he, hres⟩
      · rw [h0]; exact List.mem_map.2 ⟨x, List.mem_cons_self _ _, rfl⟩
      · exact List.mem_map.2 ⟨e, List.mem_cons.2 (Or.inr he), hres.symm⟩
    · rcases List.mem_cons.1 he with rfl | he
      · exact ha
      · exact hall e he

/-- C4: with zero remaining capacity, the cooldown wait is computed from
the oldest `session_actions` entry inside the one-hour window as
`max(1 min, oldest + window + 60 s margin − now)`; with no entry in the
window the fixed 5-minute fallback is returned.  (`calculateWaitTime` is
invoked by `runUnfollow` exactly when remaining capacity is zero.) -/
theorem claim4_wait_time_formula (log : List ActionEntry) (now : Int) :
    (log.filter (inWindow "unfollow" now) ≠ [] →
      (∀ e ∈ log, 0 < e.action_at) →
      ∃ m, m ∈ (log.filter (inWindow "unfollow" now)).map ActionEntry.action_at ∧
        (∀ e ∈ log.filter (inWindow "unfollow" now), m ≤ e.action_at) ∧
        calculateWaitTime now (.ok (oldestActionInLastHour log "unfollow" now))
          = max 60 (m + 3600 + 60 - now)) ∧
    (log.filter (inWindow "unfollow" now) = [] →
      calculateWaitTime now (.ok (oldestActionInLastHour log "unfollow" now))
        = 300) := by
  constructor
  · intro hne hpos
    obtain ⟨hmem, hmin⟩ := oldestActionInLastHour_spec log "unfollow" now hne
    refine ⟨oldestActionInLastHour log "unfollow" now, hmem, hmin, ?_⟩
    have h0 : 0 < oldestActionInLastHour log "unfollow" now := by
      obtain ⟨e, he, hee⟩ := List.mem_map.1 hmem
      exact hee ▸ hpos e (List.mem_of_mem_filter he)
    simp only [calculateWaitTime]
    rw [if_neg (by simp only [beq_iff_eq]; omega)]
    split <;> omega
  · intro hempty
    simp [calculateWaitTime, oldestActionInLastHour, hempty]

/-- Witness for C4: one in-window entry gives the margin formula (here
120 s); an empty log gives the 5-minute fallback. -/
theorem claim4_witness :
    (∃ m, m ∈ ((([⟨"unfollow", "u", 996460⟩] : List ActionEntry)).filter
          (inWindow "unfollow" 1000000)).map ActionEntry.action_at ∧
      (∀ e ∈ (([⟨"unfollow", "u", 996460⟩] : List ActionEntry)).filter
          (inWindow "unfollow" 1000000), m ≤ e.action_at) ∧
      calculateWaitTime 1000000
          (.ok (oldestActionInLastHour [⟨"unfollow", "u", 996460⟩] "unfollow" 1000000))
        = max 60 (m + 3600 + 60 - 1000000)) ∧
    calculateWaitTime 1000000 (.ok (oldestActionInLastHour [] "unfollow" 1000000))
      = 300 :=
  ⟨(claim4_wait_time_formula [⟨"unfollow", "u", 996460⟩] 1000000).1 (by decide)
      (by decide),
   (claim4_wait_time_formula [] 1000000).2 rfl⟩

/-- C7 counterexample: with exactly one log entry recorded at
`now − 59 min` (so `now = 1000000`, entry at `996460`), window 1 hour and
margin 60 s, `calculateWaitTime` returns 120 seconds — not within even ten
seconds of the claimed ≈61 seconds. -/
theorem claim7_counterexample :
    calculateWaitTime 1000000
      (.ok (oldestActionInLastHour [⟨"unfollow", "u", 996460⟩] "unfollow" 1000000))
      = 120 ∧
    ¬((120 : Int) - 61 ≤ 10) := by
  refine ⟨by decide, by decide⟩

/-- C7 amended: with exactly one log entry recorded at `now − 59 minutes`,
window 1 hour and safety margin 60 s, `calculateWaitTime` returns exactly
120 seconds (the entry exits the window one minute from now and the
60-second margin is added), and the result is never below the one-minute
floor for any read result. -/
theorem claim7_wait_is_two_minutes (now : Int) (h : 3600 ≤ now) :
    calculateWaitTime now
      (.ok (oldestActionInLastHour [⟨"unfollow", "u", now - 3540⟩] "unfollow" now))
      = 120 ∧
    ∀ res : Except String Int, 60 ≤ calculateWaitTime now res := by
  constructor
  · have hf : (([⟨"unfollow", "u", now - 3540⟩] : List ActionEntry)).filter
        (inWindow "unfollow" now) = [⟨"unfollow", "u", now - 3540⟩] := by
      simp only [List.filter, inWindow]
      simp only [beq_self_eq_true, Bool.true_and]
      rw [decide_eq_true (by omega)]
    simp only [oldestActionInLastHour, hf, List.foldl_nil, calculateWaitTime]
    rw [if_neg (by simp only [beq_iff_eq]; omega)]
    split <;> omega
  · intro res
    rcases res with msg | oldest
    · norm_num [calculateWaitTime]
    · simp only [calculateWaitTime]
      split
      · norm_num
      · split <;> omega

/-- Witness for C7's amended claim at `now = 1000000`. -/
theorem claim7_witness :
    calculateWaitTime 1000000
      (.ok (oldestActionInLastHour [⟨"unfollow", "u", 1000000 - 3540⟩] "unfollow"
        1000000)) = 120 ∧
    60 ≤ calculateWaitTime 1000000 (Except.error "no oldest") :=
  ⟨(claim7_wait_is_two_minutes 1000000 (by norm_num)).1,
   (claim7_wait_is_two_minutes 1000000 (by norm_num)).2 (Except.error "no oldest")⟩

/-- C5 counterexample: when the recent-actions read fails during the quota
check (hourly limit 5), `runUnfollow` does not stop — the error handler
downgrades the count to zero and the step proceeds with the full quota. -/
theorem claim5_counterexample :
    checkQuotaStep 5 (Except.error "db read failed") = .proceed 5 ∧
    (checkQuotaStep 5 (Except.error "db read failed")).isFatal = false :=
  ⟨rfl, rfl⟩

/-- C5 amended: a rate-limiter read failure during CheckQuota is logged and
treated as a zero recent-action count, so the quota check decides exactly
as a successful zero read would and is never fatal; a storage failure while
loading candidates, by contrast, does propagate and stops the loop. -/
theorem claim5_read_failure_policy :
    (∀ (limit : Int) (msg : String),
      checkQuotaStep limit (.error msg) = checkQuotaStep limit (.ok 0)) ∧
    (∀ (limit : Int) (res : Except String Nat),
      (checkQuotaStep limit res).isFatal = false) ∧
    (∀ (hourlyLimit : Int) (script : String → UnfollowResult) (s : Store)
        (now : Int) (reads : DBReads) (msg : String),
      reads.candidatesRead = .error msg →
      0 < hourlyLimit - (effectiveActions reads.actionsRead : Int) →
      loopIter hourlyLimit script s now reads = .fatal msg) := by
  refine ⟨fun limit msg => rfl, fun limit res => ?_, ?_⟩
  · simp only [checkQuotaStep]
    split <;> split <;> rfl
  · intro hourlyLimit script s now reads msg hread hpos
    simp only [loopIter]
    rw [if_neg (by split <;> omega), hread]

/-- Witness for C5's amended claim: a concrete failing candidate read with
positive remaining quota stops the loop fatally. -/
theorem claim5_witness :
    loopIter 5 (fun _ => .success) ⟨[], [], [], [], []⟩ 1000
      ⟨.ok 0, .error "candidates query failed", .ok 0⟩
      = .fatal "candidates query failed" :=
  claim5_read_failure_policy.2.2 5 (fun _ => .success) ⟨[], [], [], [], []⟩ 1000
    ⟨.ok 0, .error "candidates query failed", .ok 0⟩ "candidates query failed" rfl
    (by norm_num [effectiveActions])

/-! ## Lemmas about import (`upsertRelationships`) -/

/-- Whether some row of `rows` carries the username `u`. -/
def memKey (u : String) (rows : List Relationship) : Bool :=
  rows.any fun r => u == r.username

/-- The rows surviving a sequential `INSERT OR REPLACE` of `rows` into an
empty table: each username's last occurrence, in order of last occurrence. -/
def dedupKeepLast : List Relationship → List Relationship
  | [] => []
  | r :: rs =>
    if memKey r.username rs then dedupKeepLast rs else r :: dedupKeepLast rs

theorem filter_key_step (t : List Relationship) (r : Relationship)
    (rs : List Relationship) :
    (t.filter fun x => !(x.username == r.username)).filter
        (fun x => !(memKey x.username rs))
      = t.filter fun x => !(memKey x.username (r :: rs)) := by
  rw [List.filter_filter]
  apply List.filter_congr
  intro x _
  simp only [memKey, List.any_cons, Bool.not_or]
  rw [Bool.and_comm]

theorem upsertRelationships_eq (rows t : List Relationship) :
    upsertRelationships t rows =
      (t.filter fun x => !(memKey x.username rows)) ++ dedupKeepLast rows := by
  induction rows generalizing t with
  | nil => simp [upsertRelationships, dedupKeepLast, memKey]
  | cons r rs ih =>
    show upsertRelationships (upsertBy Relationship.username t r) rs = _
    rw [ih, upsertBy, List.filter_append, filter_key_step]
    by_cases hr : memKey r.username rs = true
    · simp [dedupKeepLast, hr]
    · simp [dedupKeepLast, hr]

theorem mem_of_mem_dedupKeepLast {rows : List Relationship} {x : Relationship}
    (hx : x ∈ dedupKeepLast rows) : x ∈ rows := by
  induction rows with
  | nil => simp [dedupKeepLast] at hx
  | cons r rs ih =>
    simp only [dedupKeepLast] at hx
    split at hx
    · exact List.mem_cons.2 (Or.inr (ih hx))
    · rcases List.mem_cons.1 hx with rfl | hx
      · exact List.mem_cons_self _ _
      · exact List.mem_cons.2 (Or.inr (ih hx))

theorem memKey_of_mem {rows : List Relationship} {x : Relationship}
    (hx : x ∈ rows) : memKey x.username rows = true :=
  List.any_eq_true.2 ⟨x, hx, by simp⟩

theorem upsertRelationships_idem (t rows : List Relationship) :
    upsertRelationships (upsertRelationships t rows) rows
      = upsertRelationships t rows := by
  rw [upsertRelationships_eq, upsertRelationships_eq rows t, List.filter_append]
  have h1 : (dedupKeepLast rows).filter (fun x => !(memKey x.username rows)) = [] :=
    List.filter_eq_nil_iff.2 fun x hx => by
      simp [memKey_of_mem (mem_of_mem_dedupKeepLast hx)]
  have h2 : ((t.filter fun x => !(memKey x.username rows)).filter
        fun x => !(memKey x.username rows))
      = t.filter fun x => !(memKey x.username rows) := by
    rw [List.filter_filter]
    apply List.filter_congr
    intro x _
    rw [Bool.and_self]
  rw [h1, h2, List.append_nil]

/-- C9: import is idempotent — for every export input and every prior
store state, running the import (`UpsertFollowing` of the following rows
then `UpsertFollowers` of the merged follower rows) a second time with the
same input leaves the `following` and `followers` tables exactly as after
the first run. -/
theorem claim9_import_idempotent (s : Store)
    (followingRows followersRows : List Relationship) :
    ((s.importData followingRows followersRows).importData followingRows
        followersRows).following
      = (s.importData followingRows followersRows).following ∧
    ((s.importData followingRows followersRows).importData followingRows
        followersRows).followers
      = (s.importData followingRows followersRows).followers :=
  ⟨upsertRelationships_idem s.following followingRows,
   upsertRelationships_idem s.followers followersRows⟩

/-! ## Lemmas about the controller loop -/

theorem processBatch_length_le (script : String → UnfollowResult)
    (remaining : Nat) (now : Int) (l : List Relationship) (s : Store) (k : Nat) :
    (processBatch script remaining now l s k).2.length ≤ l.length := by
  induction l generalizing s k with
  | nil => simp [processBatch]
  | cons c rest ih =>
    cases hr : script c.username with
    | success =>
      simp only [processBatch, hr]
      split
      · simp
      · simpa using Nat.succ_le_succ (ih _ _)
    | notFollowing =>
      simp only [processBatch, hr]
      simpa using Nat.succ_le_succ (ih _ _)
    | profileUnavailable =>
      simp only [processBatch, hr]
      simpa using Nat.succ_le_succ (ih _ _)
    | error =>
      simp only [processBatch, hr]
      simpa using Nat.succ_le_succ (ih _ _)

/-- The C6 scenario before the first action: quota 1, two eligible
candidates `a` (observed at 10) and `b` (observed at 5). -/
def scenarioStore : Store := ⟨[⟨"a", "h", 10⟩, ⟨"b", "h", 5⟩], [], [], [], []⟩

/-- The C6 scenario after `a` was successfully unfollowed at time 1000. -/
def scenarioStoreAfter : Store :=
  ⟨[⟨"b", "h", 5⟩], [], [⟨"a", 1000⟩], [], [⟨"unfollow", "a", 1000⟩]⟩

/-- C6: the controller never dispatches a candidate while remaining quota
is zero — exhausted quota sends the iteration to Cooldown for
`calculateWaitTime`; a batch processes at most
`min(remaining, candidate_count)` candidates; and concretely, with quota 1
and two eligible candidates, the iteration after one successful action
enters Cooldown instead of attempting the second candidate. -/
theorem claim6_quota_gating :
    (∀ (hourlyLimit : Int) (script : String → UnfollowResult) (s : Store)
        (now : Int),
      hourlyLimit ≤ (actionsInLastHour s.session_actions "unfollow" now : Int) →
      loopIter hourlyLimit script s now (honestReads s now)
        = .cooldown (calculateWaitTime now
            (.ok (oldestActionInLastHour s.session_actions "unfollow" now)))) ∧
    (∀ (hourlyLimit : Int) (script : String → UnfollowResult) (s : Store)
        (now : Int),
      ((loopIter hourlyLimit script s now (honestReads s now)).processed).length
        ≤ min (hourlyLimit
              - (actionsInLastHour s.session_actions "unfollow" now : Int)).toNat
            (unfollowCandidates s).length) ∧
    (loopIter 1 (fun _ => .success) scenarioStore 1000
        (honestReads scenarioStore 1000)
      = .batch scenarioStoreAfter [("a", .success)] ∧
     loopIter 1 (fun _ => .success) scenarioStoreAfter 1000
        (honestReads scenarioStoreAfter 1000)
      = .cooldown 3660) := by
  refine ⟨fun limit script s now h => ?_, fun limit script s now => ?_, rfl, rfl⟩
  · simp only [loopIter, honestReads, effectiveActions]
    rw [if_pos (by split <;> omega)]
  · by_cases h : limit - (actionsInLastHour s.session_actions "unfollow" now : Int) ≤ 0
    · simp only [loopIter, honestReads, effectiveActions]
      rw [if_pos (by split <;> omega)]
      simp [IterResult.processed]
    · simp only [loopIter, honestReads, effectiveActions]
      rw [if_neg (by omega :
            ¬(limit - (actionsInLastHour s.session_actions "unfollow" now : Int) < 0)),
        if_neg h]
      by_cases hL : (unfollowCandidates s).isEmpty
      · simp [hL, IterResult.processed]
      · simp only [hL, Bool.false_eq_true, if_false, IterResult.processed]
        calc ((processBatch (fun u => script u)
                (limit - (actionsInLastHour s.session_actions "unfollow" now : Int)).toNat
                now
                ((unfollowCandidates s).take
                  (min (limit - (actionsInLastHour s.session_actions "unfollow" now :
                    Int)).toNat (unfollowCandidates s).length))
                s 0).2).length
            ≤ ((unfollowCandidates s).take
                (min (limit - (actionsInLastHour s.session_actions "unfollow" now :
                  Int)).toNat (unfollowCandidates s).length)).length :=
              processBatch_length_le _ _ _ _ _ _
          _ ≤ min (limit - (actionsInLastHour s.session_actions "unfollow" now :
                Int)).toNat (unfollowCandidates s).length := by
              rw [List.length_take]
              omega

/-- Witness for C6's first conjunct: the post-success scenario store has a
full window count, so the next iteration cools down. -/
theorem claim6_witness :
    loopIter 1 (fun _ => .success) scenarioStoreAfter 1000
      (honestReads scenarioStoreAfter 1000)
      = .cooldown (calculateWaitTime 1000
          (.ok (oldestActionInLastHour scenarioStoreAfter.session_actions
            "unfollow" 1000))) :=
  claim6_quota_gating.1 1 (fun _ => .success) scenarioStoreAfter 1000 (by decide)

end InstagramUnfollow
